import Mathlib

/-!
Verification of the ScribeAI realtime session pipeline.

The definitions below are a shallow embedding of the repository code:
the Socket.io event handlers (`server/socket-server.ts` region of the
source), the Prisma-backed store accessors (`src/lib/db/sessions.ts`),
the Gemini gateway wrappers (`src/lib/gemini.ts`) and the client-side
recorder state machine (`src/lib/state/recorderMachine.ts`).

Machine-level effects (socket emits, room joins, gateway invocations) are
reified as an explicit effect trace; database operations are modelled as
pure transformations of a `Store` value, with operational failures
(connection loss, constraint aborts) injected through explicit oracle
parameters so that every failure path of the handlers is reachable.
-/

namespace ScribeAI

/-- Enum `SessionSourceType` from the Prisma schema. -/
inductive SourceType
  | MIC
  | TAB
  deriving DecidableEq, Repr

/-- Enum `SessionStatus` from the Prisma schema. -/
inductive Status
  | RECORDING
  | PAUSED
  | PROCESSING
  | COMPLETED
  | ERROR
  deriving DecidableEq, Repr

/-! ### A small JSON value model

`summarizeTranscript` runs `JSON.parse` on the model response, and the
zod schemas validate inbound JSON payloads.  We model JSON values with
this inductive type.  Numbers are modelled as integers only (the pipeline
never produces or consumes fractional literals, and the zod `.int()` check
is thereby subsumed by representability). -/
inductive Json
  | null
  | bool (b : Bool)
  | num (n : Int)
  | str (s : String)
  | arr (elems : List Json)
  | obj (fields : List (String × Json))
  deriving Repr

/-- Field lookup on a JSON object.  `JSON.parse` in JS keeps the last
occurrence of a duplicated key, so lookup returns the last match; on
non-objects property access yields `undefined`, modelled as `none`. -/
def jLookup (v : Json) (key : String) : Option Json :=
  match v with
  | .obj fields => fields.foldl (fun acc kv => if kv.1 = key then some kv.2 else acc) none
  | _ => none

/-- Extract a JSON string. -/
def jStr : Json → Option String
  | .str s => some s
  | _ => none

/-- Extract a JSON integer. -/
def jInt : Json → Option Int
  | .num n => some n
  | _ => none

/-- Extract a JSON array all of whose elements are strings. -/
def jStrList : Json → Option (List String)
  | .arr elems => elems.mapM jStr
  | _ => none

/-! ### JSON parsing (model of `JSON.parse`)

A recursive-descent parser over the character list, with a fuel
parameter for termination.  It is a faithful model on the fragment the
pipeline exercises: literals, integer numbers, strings with the common
escapes, arrays and objects.  (Fractional/exponent number syntax is not
modelled; a string containing it fails to parse here, which only makes
the degraded fallback branch of the gateway apply.) -/

/-- JSON insignificant whitespace. -/
def isJsonWs (c : Char) : Bool :=
  c = ' ' ∨ c = '\n' ∨ c = '\t' ∨ c = '\r'

/-- Skip leading whitespace. -/
def dropWs : List Char → List Char
  | [] => []
  | c :: cs => if isJsonWs c then dropWs cs else c :: cs

/-- Escape table of the JSON string grammar fragment the gateway data
can contain: each escape letter paired with the character it denotes
(quote, backslash and slash map to themselves). -/
def escPairs : List (Char × Char) :=
  [(Char.ofNat 34, Char.ofNat 34), (Char.ofNat 92, Char.ofNat 92),
   (Char.ofNat 47, Char.ofNat 47), (Char.ofNat 110, Char.ofNat 10),
   (Char.ofNat 116, Char.ofNat 9), (Char.ofNat 114, Char.ofNat 13)]

/-- Decode one escape character after a backslash. -/
def escChar (e : Char) : Option Char :=
  (escPairs.find? (fun pr => pr.1 = e)).map Prod.snd

/-- Parse the body of a string literal (after the opening quote),
returning the decoded characters and the rest of the input. -/
def jsonStrBody : List Char → Option (List Char × List Char)
  | [] => none
  | c :: rest =>
    if c = '"' then some ([], rest)
    else if c = '\\' then
      match rest with
      | [] => none
      | e :: rest2 =>
        match escChar e with
        | none => none
        | some d =>
          match jsonStrBody rest2 with
          | none => none
          | some (body, r) => some (d :: body, r)
    else
      match jsonStrBody rest with
      | none => none
      | some (body, r) => some (c :: body, r)

/-- Numeric value of one decimal digit character. -/
def digitVal (c : Char) : Nat := c.toNat - 48

/-- Numeric value of a digit run. -/
def digitsToNat (ds : List Char) : Nat :=
  ds.foldl (fun acc c => 10 * acc + digitVal c) 0

/-- Consume an expected literal from the front of the input. -/
def dropLit (lit cs : List Char) : Option (List Char) :=
  if cs.take lit.length = lit then some (cs.drop lit.length) else none

mutual

/-- Parse one JSON value, returning it and the unconsumed input. -/
def jsonVal : Nat → List Char → Option (Json × List Char)
  | 0, _ => none
  | fuel + 1, input =>
    match dropWs input with
    | [] => none
    | c :: rest =>
      if c = 'n' then (dropLit ['u', 'l', 'l'] rest).map (fun r => (Json.null, r))
      else if c = 't' then (dropLit ['r', 'u', 'e'] rest).map (fun r => (Json.bool true, r))
      else if c = 'f' then
        (dropLit ['a', 'l', 's', 'e'] rest).map (fun r => (Json.bool false, r))
      else if c = '"' then
        (jsonStrBody rest).map (fun br => (Json.str (String.mk br.1), br.2))
      else if c = '[' then
        match dropWs rest with
        | ']' :: r2 => some (Json.arr [], r2)
        | other => (jsonArrItems fuel other).map (fun vr => (Json.arr vr.1, vr.2))
      else if c = '{' then
        match dropWs rest with
        | '}' :: r2 => some (Json.obj [], r2)
        | other => (jsonObjItems fuel other).map (fun fr => (Json.obj fr.1, fr.2))
      else if c = '-' then
        match rest.span Char.isDigit with
        | (ds, r2) => if ds.isEmpty then none else some (Json.num (-(digitsToNat ds : Int)), r2)
      else if c.isDigit then
        match (c :: rest).span Char.isDigit with
        | (ds, r2) => some (Json.num (digitsToNat ds : Int), r2)
      else none

/-- Parse the items of a non-empty array, up to and including the
closing bracket. -/
def jsonArrItems : Nat → List Char → Option (List Json × List Char)
  | 0, _ => none
  | fuel + 1, input =>
    match jsonVal fuel input with
    | none => none
    | some (v, r) =>
      match dropWs r with
      | ',' :: r2 => (jsonArrItems fuel r2).map (fun vr => (v :: vr.1, vr.2))
      | ']' :: r2 => some ([v], r2)
      | _ => none

/-- Parse the members of a non-empty object, up to and including the
closing brace. -/
def jsonObjItems : Nat → List Char → Option (List (String × Json) × List Char)
  | 0, _ => none
  | fuel + 1, input =>
    match dropWs input with
    | '"' :: rest =>
      (match jsonStrBody rest with
       | none => none
       | some (k, r) =>
         match dropWs r with
         | ':' :: r2 =>
           (match jsonVal fuel r2 with
            | none => none
            | some (v, r3) =>
              match dropWs r3 with
              | ',' :: r4 =>
                (jsonObjItems fuel r4).map (fun fr => ((String.mk k, v) :: fr.1, fr.2))
              | '}' :: r4 => some ([(String.mk k, v)], r4)
              | _ => none)
         | _ => none)
    | _ => none

end

/-- Model of `JSON.parse`: parse a whole string as one JSON value,
requiring the remainder to be whitespace. -/
def Json.parse (s : String) : Option Json :=
  let cs := s.toList
  match jsonVal (2 * cs.length + 4) cs with
  | some (v, rest) => if (dropWs rest).isEmpty then some v else none
  | none => none

/-! ### UUID validation (model of `z.string().uuid()`) -/

/-- Hexadecimal digit test. -/
def isHexDigit (c : Char) : Bool :=
  ('0' ≤ c ∧ c ≤ '9') ∨ ('a' ≤ c ∧ c ≤ 'f') ∨ ('A' ≤ c ∧ c ≤ 'F')

/-- Canonical 8-4-4-4-12 hyphenated hexadecimal UUID format, the check
performed by the zod `.uuid()` refinement: splitting on hyphens yields
groups of those five lengths, all hexadecimal. -/
def isUuid (s : String) : Bool :=
  let groups := s.toList.splitOn (Char.ofNat 45)
  groups.map List.length = [8, 4, 4, 4, 12] ∧
    groups.all (fun g => g.all isHexDigit)

/-! ### Summarization gateway (`summarizeTranscript` in `src/lib/gemini.ts`)

The Gemini call itself is an external capability: we model the function
of the raw model-response text, which is the part the repository owns.
`transcribeChunk` likewise reduces to the response text and is handled
as an oracle input of the audio-chunk handler below. -/

/-- Result shape of `summarizeTranscript` (`SummarizeTranscriptResult`).
The TS type carries `string[] | null` lists; `none` models `null`. -/
structure SummarizeResult where
  content : String
  keyPoints : Option (List String)
  actionItems : Option (List String)
  decisions : Option (List String)
  deriving DecidableEq, Repr

/-- Backtick character (code point 0x60), written via its code point. -/
def btick : Char := Char.ofNat 96

/-- Characters of the fence lexeme matched first by the regex
alternation in `raw.replace(/```json|```/g, "")`. -/
def fenceJson : List Char := [btick, btick, btick, 'j', 's', 'o', 'n']

/-- Characters of the shorter fence lexeme of that alternation. -/
def fencePlain : List Char := [btick, btick, btick]

/-- One left-to-right pass of the global fence replacement: at each
position the regex engine tries the longer alternative first; fuel keeps
the recursion structural so that concrete runs reduce definitionally. -/
def stripFencesCharsF : Nat → List Char → List Char
  | 0, l => l
  | _ + 1, [] => []
  | fuel + 1, c :: rest =>
    if (c :: rest).take 7 = fenceJson then stripFencesCharsF fuel (rest.drop 6)
    else if (c :: rest).take 3 = fencePlain then stripFencesCharsF fuel (rest.drop 2)
    else c :: stripFencesCharsF fuel rest

/-- Markdown-fence removal applied to the raw response. -/
def stripFences (s : String) : String :=
  String.mk (stripFencesCharsF s.toList.length s.toList)

/-- Whitespace removed by the JS `String.prototype.trim` (the ASCII
whitespace the data of the pipeline can contain). -/
def isTrimWs (c : Char) : Bool :=
  c = ' ' ∨ c = '\n' ∨ c = '\t' ∨ c = '\r'

/-- Model of the JS `.trim()`: drop whitespace from both ends. -/
def jsTrim (s : String) : String :=
  String.mk (((s.toList.dropWhile isTrimWs).reverse.dropWhile isTrimWs).reverse)

/-- Model of `summarizeTranscript`, as a function of the raw model-response text:
trim, strip markdown fences, `JSON.parse`; on parse failure fall back to
the raw text as the overview with all three lists null; on success
extract `summary` (falling back to the raw text when nullish) and the
three lists.  A list field whose value is not an array of strings is
outside the expected gateway shape and is modelled as absent. -/
def summarizeTranscript (rawResponseText : String) : SummarizeResult :=
  let raw := jsTrim rawResponseText
  let normalized := jsTrim (stripFences raw)
  match Json.parse normalized with
  | none =>
      { content := raw, keyPoints := none, actionItems := none, decisions := none }
  | some v =>
      { content := ((jLookup v "summary").bind jStr).getD raw
        keyPoints := (jLookup v "keyPoints").bind jStrList
        actionItems := (jLookup v "actionItems").bind jStrList
        decisions := (jLookup v "decisions").bind jStrList }

/-! ### Store rows and chunk aggregation -/

/-- A `Session` row (`Session` table; timestamps that the pipeline never
reads are omitted, `completedAt` is kept as an abstract clock value). -/
structure SessionRow where
  id : String
  userId : String
  title : Option String
  sourceType : SourceType
  status : Status
  completedAt : Option Nat
  deriving DecidableEq, Repr

/-- A `TranscriptChunk` row. -/
structure ChunkRow where
  sessionId : String
  index : Nat
  text : String
  startMs : Nat
  endMs : Nat
  deriving DecidableEq, Repr

/-- A `Summary` row.  The list fields are stored as nullable
`JSON.stringify` text, modelled as the stringified payload. -/
structure SummaryRow where
  sessionId : String
  content : String
  keyPoints : Option String
  actionItems : Option String
  decisions : Option String
  deriving DecidableEq, Repr

/-- Escape a string for JSON output (backslash and quote, the cases the
pipeline's data can contain). -/
def escapeJsonStr (s : String) : String :=
  String.mk (s.toList.flatMap (fun c =>
    if c = '\\' then ['\\', '\\']
    else if c = '"' then ['\\', '"']
    else [c]))

/-- Model of `JSON.stringify` on an array of strings, as used when persisting the
summary lists. -/
def jsonStringifyList (l : List String) : String :=
  "[" ++ String.intercalate "," (l.map (fun s => "\"" ++ escapeJsonStr s ++ "\"")) ++ "]"

/-- Chunk ordering used by `orderBy: (index, "asc")`. -/
def chunkLE (a b : ChunkRow) : Prop := a.index ≤ b.index

instance : DecidableRel chunkLE := fun a b => inferInstanceAs (Decidable (a.index ≤ b.index))

instance : IsTotal ChunkRow chunkLE := ⟨fun a b => Nat.le_total a.index b.index⟩

instance : IsTrans ChunkRow chunkLE := ⟨fun _ _ _ h1 h2 => Nat.le_trans h1 h2⟩

/-- Strict version of the chunk ordering. -/
def chunkLT (a b : ChunkRow) : Prop := a.index < b.index

instance : IsTrans ChunkRow chunkLT := ⟨fun _ _ _ h1 h2 => Nat.lt_trans h1 h2⟩

instance : IsAntisymm ChunkRow chunkLT :=
  ⟨fun _ _ h1 h2 => absurd h1 (Nat.lt_asymm h2)⟩

/-- The `findMany(orderBy: index asc)` read of the store: a sort of the
stored rows by ascending index. -/
def sortChunks (l : List ChunkRow) : List ChunkRow :=
  List.insertionSort chunkLE l

/-- Full-transcript aggregation in the `session:stop` handler:
`chunks.map(c => c.text).join(" ")` over the index-ordered rows. -/
def fullTranscript (l : List ChunkRow) : String :=
  String.intercalate " " ((sortChunks l).map ChunkRow.text)

/-! ### The store and its operations (`src/lib/db/sessions.ts`) -/

/-- Durable state behind the Prisma client. -/
structure Store where
  sessions : List SessionRow
  chunks : List ChunkRow
  summaries : List SummaryRow
  deriving DecidableEq, Repr

/-- The chunk rows of one session, in insertion order. -/
def Store.chunksOf (st : Store) (sid : String) : List ChunkRow :=
  st.chunks.filter (fun c => c.sessionId = sid)

/-- The summary rows of one session (the unique database index
`Summary_sessionId_key` keeps this at most a singleton). -/
def Store.summariesOf (st : Store) (sid : String) : List SummaryRow :=
  st.summaries.filter (fun r => r.sessionId = sid)

/-- Status of a session row, `none` when the row is absent. -/
def Store.statusOf (st : Store) (sid : String) : Option Status :=
  (st.sessions.find? (fun r => r.id = sid)).map SessionRow.status

/-- Field `completedAt` of a session row. -/
def Store.completedAtOf (st : Store) (sid : String) : Option (Option Nat) :=
  (st.sessions.find? (fun r => r.id = sid)).map SessionRow.completedAt

/-- Whether a session row exists. -/
def Store.hasSession (st : Store) (sid : String) : Bool :=
  st.sessions.any (fun r => r.id = sid)

/-- Model of `createSession`: a `prisma.session.create` with caller-supplied id,
status RECORDING.  The primary key makes a duplicate id a constraint
error. -/
def createSession (st : Store) (id userId : String) (title : Option String)
    (sourceType : SourceType) : Except String Store :=
  if st.hasSession id then
    .error "Unique constraint failed on the fields: (id)"
  else
    .ok { st with sessions := st.sessions ++
      [{ id := id, userId := userId, title := title, sourceType := sourceType,
         status := .RECORDING, completedAt := none }] }

/-- Model of `updateSessionStatus`: `prisma.session.updateMany`, a silent no-op
when the row is missing. -/
def updateSessionStatus (st : Store) (sid : String) (status : Status) : Store :=
  { st with sessions := st.sessions.map (fun r =>
      if r.id = sid then { r with status := status } else r) }

/-- Model of `appendTranscriptChunk`: `prisma.transcriptChunk.create`. -/
def appendTranscriptChunk (st : Store) (sid : String) (index : Nat) (text : String)
    (startMs endMs : Nat) : Store :=
  { st with chunks := st.chunks ++
      [{ sessionId := sid, index := index, text := text, startMs := startMs, endMs := endMs }] }

/-! ### Transactions and `completeSessionWithSummary` -/

/-- Run a list of store operations in sequence, failing as soon as one
fails. -/
def runOps : List (Store → Except String Store) → Store → Except String Store
  | [], st => .ok st
  | op :: rest, st =>
    match op st with
    | .ok st2 => runOps rest st2
    | .error e => .error e

/-- Model of `prisma.$transaction`: the listed writes run in order inside
one database transaction; the database may abort while running any of
them (constraint violation, connection loss — the `failAt` oracle), and
an abort rolls back every write, leaving the caller with an error and
the store untouched. -/
def runTransaction (failAt : Option Nat) (ops : List (Store → Except String Store))
    (st : Store) : Except String Store :=
  match failAt with
  | some k => if k < ops.length then .error "transaction aborted" else runOps ops st
  | none => runOps ops st

/-- First write of the transaction in `completeSessionWithSummary`:
`prisma.session.update` sets the status and `completedAt` on the
session row. -/
def sessionUpdateApplied (sid : String) (status : Status) (now : Nat) (st : Store) : Store :=
  { st with sessions := st.sessions.map (fun r =>
      if r.id = sid then { r with status := status, completedAt := some now } else r) }

/-- Outcome of that write: `prisma.session.update` throws when the row
is missing. -/
def sessionUpdateCompleted (sid : String) (status : Status) (now : Nat)
    (st : Store) : Except String Store :=
  if st.hasSession sid then
    .ok (sessionUpdateApplied sid status now st)
  else
    .error "An operation failed because it depends on one or more records that were required but not found."

/-- Second write of the transaction: `prisma.summary.upsert` keyed by
`sessionId` (unique index `Summary_sessionId_key`): update the content fields of the existing
row, or create the row. -/
def summaryUpsert (sid : String) (content : String)
    (keyPoints actionItems decisions : Option (List String))
    (st : Store) : Store :=
  let row : SummaryRow :=
    { sessionId := sid, content := content,
      keyPoints := keyPoints.map jsonStringifyList,
      actionItems := actionItems.map jsonStringifyList,
      decisions := decisions.map jsonStringifyList }
  if st.summaries.any (fun r => r.sessionId = sid) then
    { st with summaries := st.summaries.map (fun r =>
        if r.sessionId = sid then row else r) }
  else
    { st with summaries := st.summaries ++ [row] }

/-- Model of `completeSessionWithSummary`: run the status write and the
summary upsert as one transaction.  (The subsequent `findUniqueOrThrow`
re-read only hydrates the return value and does not change the store.) -/
def completeSessionWithSummary (failAt : Option Nat) (st : Store) (sid : String)
    (content : String) (keyPoints actionItems decisions : Option (List String))
    (status : Status) (now : Nat) : Except String Store :=
  runTransaction failAt
    [sessionUpdateCompleted sid status now,
     fun st2 => .ok (summaryUpsert sid content keyPoints actionItems decisions st2)] st

/-! ### Outbound events and effects -/

/-- Outbound socket events emitted by the pipeline. -/
inductive OutEvent
  | statusMsg (sessionId : String) (status : Status)
  | partialTranscript (sessionId : String) (index : Nat) (text : String) (startMs endMs : Nat)
  | completedMsg (sessionId : String)
  | errorMsg (message : String)
  deriving DecidableEq, Repr

/-- Observable actions of a handler besides the store transition. -/
inductive Effect
  | emitToSender (e : OutEvent)
  | broadcast (room : String) (e : OutEvent)
  | joinRoom (room : String)
  | callTranscribe (sessionId : String) (index : Nat)
  | callSummarize (transcript : String)
  deriving DecidableEq, Repr

/-! ### Inbound payload validation (the zod schemas) -/

/-- Parsed `SessionStartSchema` data. -/
structure StartData where
  sessionId : String
  userId : String
  title : Option String
  sourceType : SourceType
  deriving DecidableEq, Repr

/-- Parsed `AudioChunkSchema` data. -/
structure AudioChunkData where
  sessionId : String
  index : Nat
  audioBase64 : String
  mimeType : String
  startMs : Nat
  endMs : Nat
  deriving DecidableEq, Repr

/-- Validation of `SessionStartSchema.safeParse`: an object with a UUID
string `sessionId`, a string `userId`, an optional string `title`
(absent allowed, `null` rejected by `z.string().optional()`), and a
`sourceType` drawn from the `MIC`/`TAB` enum. -/
def parseStart (p : Json) : Option StartData := do
  let sid ← (jLookup p "sessionId").bind jStr
  if isUuid sid then
    let userId ← (jLookup p "userId").bind jStr
    let title ← match jLookup p "title" with
      | none => some none
      | some (.str t) => some (some t)
      | some _ => none
    let st ← match (jLookup p "sourceType").bind jStr with
      | some "MIC" => some SourceType.MIC
      | some "TAB" => some SourceType.TAB
      | _ => none
    pure { sessionId := sid, userId := userId, title := title, sourceType := st }
  else none

/-- Turn a JSON field into a non-negative integer, as
`z.number().int().nonnegative()` does. -/
def jNonneg (v : Option Json) : Option Nat := do
  let n ← v.bind jInt
  if 0 ≤ n then pure n.toNat else none

/-- Validation of `AudioChunkSchema.safeParse`: UUID `sessionId`,
non-negative integer `index`/`startMs`/`endMs`, non-empty strings
`audioBase64` and `mimeType`. -/
def parseAudioChunk (p : Json) : Option AudioChunkData := do
  let sid ← (jLookup p "sessionId").bind jStr
  if isUuid sid then
    let index ← jNonneg (jLookup p "index")
    let audio ← (jLookup p "audioBase64").bind jStr
    if audio = "" then none else
    let mime ← (jLookup p "mimeType").bind jStr
    if mime = "" then none else
    let startMs ← jNonneg (jLookup p "startMs")
    let endMs ← jNonneg (jLookup p "endMs")
    pure { sessionId := sid, index := index, audioBase64 := audio,
           mimeType := mime, startMs := startMs, endMs := endMs }
  else none

/-- Validation of `SessionControlSchema.safeParse`: an object with a
UUID string `sessionId`. -/
def parseControl (p : Json) : Option String := do
  let sid ← (jLookup p "sessionId").bind jStr
  if isUuid sid then pure sid else none

/-! ### The socket event handlers (`io.on("connection")` in the server)

Each handler is a pure function of the store, the inbound JSON payload
and an environment of oracles deciding the outcome of the operational
failure points (a Prisma call rejecting, a gateway call throwing).  It
returns the new store and the trace of observable effects, in emission
order. -/

/-- Failure oracle for `session:start`: whether `createSession` rejects
operationally (user foreign key, connection loss) beyond the
deterministic duplicate-id constraint. -/
structure StartEnv where
  createFail : Bool
  deriving DecidableEq, Repr

/-- Environment of `session:audioChunk`: outcome of the transcription
gateway call (the trimmed response text, or a thrown error), and whether
the chunk insert rejects operationally. -/
structure ChunkEnv where
  transcribe : Except String String
  appendFail : Bool
  deriving Repr

/-- Failure oracle for `session:pause` / `session:resume`. -/
structure CtrlEnv where
  updateFail : Bool
  deriving DecidableEq, Repr

/-- Environment of `session:stop`: failure oracles for the status write,
the chunk read and the best-effort ERROR write, the summarization
gateway as a function of the transcript, the transaction abort oracle,
and the completion clock. -/
structure StopEnv where
  procFail : Bool
  readFail : Bool
  summarize : String → Except String SummarizeResult
  txFailAt : Option Nat
  errFail : Bool
  now : Nat

/-- Handler of `session:start`. -/
def handleStart (env : StartEnv) (st : Store) (payload : Json) : Store × List Effect :=
  match parseStart payload with
  | none => (st, [.emitToSender (.errorMsg "Invalid session:start payload")])
  | some d =>
    if env.createFail then (st, [.emitToSender (.errorMsg "Failed to create session")])
    else
      match createSession st d.sessionId d.userId d.title d.sourceType with
      | .error _ => (st, [.emitToSender (.errorMsg "Failed to create session")])
      | .ok st2 =>
        (st2, [.joinRoom d.sessionId, .broadcast d.sessionId (.statusMsg d.sessionId .RECORDING)])

/-- Handler of `session:audioChunk`.  On a thrown gateway call the catch
block emits the error to the sender; on empty transcription text the
handler returns without storing (`if (!text) return`); otherwise the
chunk row is created (rejected by the store when the session row is
missing — the `TranscriptChunk_sessionId_fkey` constraint — or when the
`appendFail` oracle fires) and the partial transcript is broadcast. -/
def handleAudioChunk (env : ChunkEnv) (st : Store) (payload : Json) : Store × List Effect :=
  match parseAudioChunk payload with
  | none => (st, [.emitToSender (.errorMsg "Invalid session:audioChunk payload")])
  | some d =>
    let call := [Effect.callTranscribe d.sessionId d.index]
    match env.transcribe with
    | .error _ => (st, call ++ [.emitToSender (.errorMsg "Failed to process audio chunk")])
    | .ok text =>
      if text = "" then (st, call)
      else if env.appendFail ∨ st.hasSession d.sessionId = false then
        (st, call ++ [.emitToSender (.errorMsg "Failed to process audio chunk")])
      else
        (appendTranscriptChunk st d.sessionId d.index text d.startMs d.endMs,
         call ++ [.broadcast d.sessionId
           (.partialTranscript d.sessionId d.index text d.startMs d.endMs)])

/-- Handler of `session:pause`. -/
def handlePause (env : CtrlEnv) (st : Store) (payload : Json) : Store × List Effect :=
  match parseControl payload with
  | none => (st, [.emitToSender (.errorMsg "Invalid session:pause payload")])
  | some sid =>
    if env.updateFail then (st, [.emitToSender (.errorMsg "Failed to pause session")])
    else (updateSessionStatus st sid .PAUSED, [.broadcast sid (.statusMsg sid .PAUSED)])

/-- Handler of `session:resume`. -/
def handleResume (env : CtrlEnv) (st : Store) (payload : Json) : Store × List Effect :=
  match parseControl payload with
  | none => (st, [.emitToSender (.errorMsg "Invalid session:resume payload")])
  | some sid =>
    if env.updateFail then (st, [.emitToSender (.errorMsg "Failed to resume session")])
    else (updateSessionStatus st sid .RECORDING, [.broadcast sid (.statusMsg sid .RECORDING)])

/-- Catch block of `session:stop`: best-effort ERROR status write whose
own failure is swallowed (`.catch(() => ...)`), then the ERROR status
broadcast and the error event to the sender. -/
def stopCatch (env : StopEnv) (st : Store) (sid : String) : Store × List Effect :=
  let st2 := if env.errFail then st else updateSessionStatus st sid .ERROR
  (st2, [.broadcast sid (.statusMsg sid .ERROR),
         .emitToSender (.errorMsg "Failed to finalize session")])

/-- Handler of `session:stop`: the finalization pipeline of §4.4.  Any
failure among the PROCESSING status write, the chunk read, the
summarization call and the completion transaction jumps to the catch
block. -/
def handleStop (env : StopEnv) (st : Store) (payload : Json) : Store × List Effect :=
  match parseControl payload with
  | none => (st, [.emitToSender (.errorMsg "Invalid session:stop payload")])
  | some sid =>
    if env.procFail then stopCatch env st sid
    else
      let st1 := updateSessionStatus st sid .PROCESSING
      let pre := [Effect.broadcast sid (.statusMsg sid .PROCESSING)]
      if env.readFail then
        let r := stopCatch env st1 sid
        (r.1, pre ++ r.2)
      else
        let transcript := fullTranscript (st1.chunksOf sid)
        let pre2 := pre ++ [Effect.callSummarize transcript]
        match env.summarize transcript with
        | .error _ =>
          let r := stopCatch env st1 sid
          (r.1, pre2 ++ r.2)
        | .ok summary =>
          match completeSessionWithSummary env.txFailAt st1 sid summary.content
              summary.keyPoints summary.actionItems summary.decisions .COMPLETED env.now with
          | .error _ =>
            let r := stopCatch env st1 sid
            (r.1, pre2 ++ r.2)
          | .ok st2 => (st2, pre2 ++ [.broadcast sid (.completedMsg sid)])

/-- Sequential processing of a list of `session:audioChunk` events, each
with its own gateway outcome. -/
def runChunkEvents : List (ChunkEnv × Json) → Store → Store × List Effect
  | [], st => (st, [])
  | (env, p) :: rest, st =>
    let r1 := handleAudioChunk env st p
    let r2 := runChunkEvents rest r1.1
    (r2.1, r1.2 ++ r2.2)

/-! ### The recorder state machine (`src/lib/state/recorderMachine.ts`)

The XState chart is embedded as a total step function over the state and
the context: a listed transition runs its transition actions followed by
the entry actions of the target state; an unlisted event leaves both the
state and the context untouched (XState silently drops it). -/

/-- States of the recorder machine. -/
inductive RState
  | idle
  | recording
  | paused
  | reconnecting
  | processing
  | completed
  | error
  deriving DecidableEq, Repr

/-- Context record of the recorder machine (`RecorderContext`). -/
structure RContext where
  sessionId : Option String
  sourceType : SourceType
  statusMessage : String
  errorMessage : Option String
  deriving DecidableEq, Repr

/-- Events of the recorder machine (`RecorderEvent`). -/
inductive REvent
  | START (sessionId : String) (sourceType : SourceType)
  | PAUSE
  | RESUME
  | STOP
  | PROCESSING
  | COMPLETED
  | SOCKET_DISCONNECTED
  | SOCKET_RECONNECTED
  | ERROR (message : String)
  | RESET
  deriving DecidableEq, Repr

/-- Action `assignStart`. -/
def assignStart (ctx : RContext) (sid : String) (src : SourceType) : RContext :=
  { ctx with sessionId := some sid, sourceType := src,
             statusMessage := "Recording", errorMessage := none }

/-- Action `assignError`. -/
def assignError (ctx : RContext) (message : String) : RContext :=
  { ctx with errorMessage := some message, statusMessage := "Error" }

/-- Action `clearError`. -/
def clearError (ctx : RContext) : RContext :=
  { ctx with errorMessage := none, statusMessage := "Idle" }

/-- Action `setStatusRecording`. -/
def setStatusRecording (ctx : RContext) : RContext :=
  { ctx with statusMessage := "Recording" }

/-- Action `setStatusPaused`. -/
def setStatusPaused (ctx : RContext) : RContext :=
  { ctx with statusMessage := "Paused" }

/-- Action `setStatusProcessing` (the entry action of `processing`). -/
def setStatusProcessing (ctx : RContext) : RContext :=
  { ctx with statusMessage := "Processing summary…" }

/-- Action `setStatusCompleted` (the entry action of `completed`). -/
def setStatusCompleted (ctx : RContext) : RContext :=
  { ctx with statusMessage := "Completed" }

/-- Action `setStatusReconnecting`. -/
def setStatusReconnecting (ctx : RContext) : RContext :=
  { ctx with statusMessage := "Reconnecting…" }

/-- Action `setStatusError` (the entry action of `error`): fill in a
default message when `errorMessage` is nullish or the empty string
(both falsy in the JS check `if (!context.errorMessage)`). -/
def setStatusError (ctx : RContext) : RContext :=
  if ctx.errorMessage = none ∨ ctx.errorMessage = some "" then
    { ctx with errorMessage := some "Unexpected error" }
  else ctx

/-- Step function of the recorder machine: the transitions of the XState
chart, with the fall-through case modelling the silent drop by XState of any
event the current state does not list. -/
def rstep : RState → RContext → REvent → RState × RContext
  | .idle, ctx, .START sid src => (.recording, assignStart ctx sid src)
  | .recording, ctx, .PAUSE => (.paused, setStatusPaused ctx)
  | .recording, ctx, .STOP => (.processing, setStatusProcessing ctx)
  | .recording, ctx, .SOCKET_DISCONNECTED => (.reconnecting, setStatusReconnecting ctx)
  | .recording, ctx, .ERROR m => (.error, setStatusError (assignError ctx m))
  | .paused, ctx, .RESUME => (.recording, setStatusRecording ctx)
  | .paused, ctx, .STOP => (.processing, setStatusProcessing ctx)
  | .reconnecting, ctx, .SOCKET_RECONNECTED => (.recording, setStatusRecording ctx)
  | .reconnecting, ctx, .STOP => (.processing, setStatusProcessing ctx)
  | .processing, ctx, .COMPLETED => (.completed, setStatusCompleted ctx)
  | .processing, ctx, .ERROR m => (.error, setStatusError (assignError ctx m))
  | .completed, ctx, .START sid src => (.recording, assignStart ctx sid src)
  | .completed, ctx, .RESET => (.idle, ctx)
  | .error, ctx, .RESET => (.idle, clearError ctx)
  | s, ctx, _ => (s, ctx)

/-- Transition table of §4.3 of the specification, transcribed verbatim
from the lifecycle list of the spec (this is the table of the spec, kept separate
from the machine source embedded in `rstep` so the two can be
compared). -/
def specListed : RState → REvent → Bool
  | .idle, .START _ _ => true
  | .recording, .PAUSE => true
  | .recording, .STOP => true
  | .recording, .SOCKET_DISCONNECTED => true
  | .reconnecting, .SOCKET_RECONNECTED => true
  | .reconnecting, .STOP => true
  | .paused, .RESUME => true
  | .paused, .STOP => true
  | .processing, .COMPLETED => true
  | .processing, .ERROR _ => true
  | .completed, .START _ _ => true
  | .completed, .RESET => true
  | .error, .RESET => true
  | _, _ => false

/-- Transition table of the machine as implemented: the table of §4.3
plus the `recording --ERROR--> error` transition present in the source. -/
def machineListed : RState → REvent → Bool
  | .recording, .ERROR _ => true
  | s, e => specListed s e

/-! ### Helper lemmas on chunk sorting -/

/-- Sorting by index only permutes the rows. -/
theorem sortChunks_perm (l : List ChunkRow) : (sortChunks l).Perm l :=
  List.perm_insertionSort chunkLE l

/-- Sorting by index sorts. -/
theorem sortChunks_sorted (l : List ChunkRow) : List.Sorted chunkLE (sortChunks l) :=
  List.sorted_insertionSort chunkLE l

/-- On a chunk list with pairwise-distinct indices, an index-nondecreasing
sorted order is strictly increasing. -/
theorem sorted_strict_of_nodup (l : List ChunkRow)
    (hs : List.Sorted chunkLE l) (hnd : (l.map ChunkRow.index).Nodup) :
    List.Sorted chunkLT l := by
  have hne : List.Pairwise (fun a b : ChunkRow => a.index ≠ b.index) l :=
    List.pairwise_map.mp hnd
  exact (hs.and hne).imp (fun h => lt_of_le_of_ne h.1 h.2)

/-- Two permuted chunk lists with the same distinct indices sort to the
same list. -/
theorem sortChunks_eq_of_perm (l1 l2 : List ChunkRow)
    (hperm : l1.Perm l2) (hnd : (l1.map ChunkRow.index).Nodup) :
    sortChunks l1 = sortChunks l2 := by
  have p1 := sortChunks_perm l1
  have p2 := sortChunks_perm l2
  have hnd1 : ((sortChunks l1).map ChunkRow.index).Nodup :=
    ((p1.map ChunkRow.index).nodup_iff).mpr hnd
  have hnd2 : ((sortChunks l2).map ChunkRow.index).Nodup :=
    ((p2.map ChunkRow.index).nodup_iff).mpr (((hperm.map ChunkRow.index).nodup_iff).mp hnd)
  exact List.eq_of_perm_of_sorted
    (p1.trans (hperm.trans p2.symm))
    (sorted_strict_of_nodup _ (sortChunks_sorted l1) hnd1)
    (sorted_strict_of_nodup _ (sortChunks_sorted l2) hnd2)

/-- C1: for every set of stored transcript chunks with unique indices,
the full transcript of the finalization step is the text of the chunks in
ascending index order joined by single spaces and hence independent of
the order in which the chunks were appended (any two append orders are
permutations of one another), and the empty chunk set aggregates to the
empty string rather than an error. -/
theorem fullTranscript_order_independent (l1 l2 : List ChunkRow)
    (hperm : l1.Perm l2) (hnd : (l1.map ChunkRow.index).Nodup) :
    fullTranscript l1 = fullTranscript l2 ∧ fullTranscript [] = "" := by
  refine ⟨?_, rfl⟩
  unfold fullTranscript
  rw [sortChunks_eq_of_perm l1 l2 hperm hnd]

/-- Witness for C1 at a concrete two-chunk session received out of
order: both arrival orders aggregate to the same transcript. -/
theorem fullTranscript_order_independent_witness :
    fullTranscript [⟨"s1", 1, "world", 1000, 2000⟩, ⟨"s1", 0, "hello", 0, 1000⟩] =
      fullTranscript [⟨"s1", 0, "hello", 0, 1000⟩, ⟨"s1", 1, "world", 1000, 2000⟩] ∧
    fullTranscript [⟨"s1", 0, "hello", 0, 1000⟩, ⟨"s1", 1, "world", 1000, 2000⟩] = "hello world" := by
  refine ⟨(fullTranscript_order_independent _ _ ?_ ?_).1, by rfl⟩
  · exact List.Perm.swap _ _ _
  · decide

/-! ### Helper lemmas on the store operations -/

/-- Status updates do not touch chunk rows. -/
theorem updateSessionStatus_chunks (st : Store) (sid : String) (s : Status) :
    (updateSessionStatus st sid s).chunks = st.chunks := rfl

/-- Status updates do not touch summary rows. -/
theorem updateSessionStatus_summaries (st : Store) (sid : String) (s : Status) :
    (updateSessionStatus st sid s).summaries = st.summaries := rfl

/-- Status updates preserve which session rows exist. -/
theorem updateSessionStatus_hasSession (st : Store) (sid sid2 : String) (s : Status) :
    (updateSessionStatus st sid s).hasSession sid2 = st.hasSession sid2 := by
  simp only [updateSessionStatus, Store.hasSession, List.any_map, Function.comp]
  congr 1
  funext r
  by_cases h : r.id = sid <;> simp [h]

/-- The summary upsert does not touch session rows. -/
theorem summaryUpsert_sessions (sid c : String) (kp ai de : Option (List String)) (st : Store) :
    (summaryUpsert sid c kp ai de st).sessions = st.sessions := by
  unfold summaryUpsert
  split <;> rfl

/-- The summary upsert does not touch chunk rows. -/
theorem summaryUpsert_chunks (sid c : String) (kp ai de : Option (List String)) (st : Store) :
    (summaryUpsert sid c kp ai de st).chunks = st.chunks := by
  unfold summaryUpsert
  split <;> rfl

/-- The summary row written by the upsert. -/
def upsertRow (sid c : String) (kp ai de : Option (List String)) : SummaryRow :=
  { sessionId := sid, content := c,
    keyPoints := kp.map jsonStringifyList,
    actionItems := ai.map jsonStringifyList,
    decisions := de.map jsonStringifyList }

/-- Replacing every row of a session by one fixed row of that session
turns the rows of the session into copies of the replacement. -/
theorem filter_map_replace (l : List SummaryRow) (sid : String) (row : SummaryRow)
    (hrow : row.sessionId = sid) :
    (l.map (fun r => if r.sessionId = sid then row else r)).filter
        (fun r => r.sessionId = sid) =
      (l.filter (fun r => r.sessionId = sid)).map (fun _ => row) := by
  induction l with
  | nil => rfl
  | cons hd tl ih => by_cases h : hd.sessionId = sid <;> simp [h, hrow, ih]

/-- Under the `Summary_sessionId_key` uniqueness invariant, the upsert
leaves the session with exactly its new summary row. -/
theorem summariesOf_upsert (st : Store) (sid c : String) (kp ai de : Option (List String))
    (hinv : (st.summariesOf sid).length ≤ 1) :
    (summaryUpsert sid c kp ai de st).summariesOf sid = [upsertRow sid c kp ai de] := by
  unfold summaryUpsert Store.summariesOf
  split
  · rename_i hany
    simp only
    rw [filter_map_replace st.summaries sid _ rfl]
    have hpos : 0 < (st.summaries.filter (fun r => r.sessionId = sid)).length := by
      rcases List.any_eq_true.mp hany with ⟨x, hx, hpx⟩
      have : x ∈ st.summaries.filter (fun r => r.sessionId = sid) :=
        List.mem_filter.mpr ⟨hx, hpx⟩
      exact List.length_pos.mpr (List.ne_nil_of_mem this)
    have hone : (st.summaries.filter (fun r : SummaryRow => r.sessionId = sid)).length = 1 := by
      have := hinv
      unfold Store.summariesOf at this
      omega
    rcases List.length_eq_one.mp hone with ⟨a, ha⟩
    rw [ha]
    rfl
  · rename_i hany
    simp only [List.filter_append]
    have hfalse : st.summaries.any (fun r => decide (r.sessionId = sid)) = false :=
      Bool.eq_false_iff.mpr hany
    have hnil : st.summaries.filter (fun r : SummaryRow => r.sessionId = sid) = [] := by
      rw [List.filter_eq_nil_iff]
      exact List.any_eq_false.mp hfalse
    rw [hnil]
    simp [upsertRow]

/-- The completion write preserves which session rows exist. -/
theorem sessionUpdateApplied_hasSession (sid sid2 : String) (s : Status) (now : Nat) (st : Store) :
    (sessionUpdateApplied sid s now st).hasSession sid2 = st.hasSession sid2 := by
  simp only [sessionUpdateApplied, Store.hasSession, List.any_map, Function.comp]
  congr 1
  funext r
  by_cases h : r.id = sid <;> simp [h]

/-- After the completion write, every row of the session carries the new
status and completion time. -/
theorem sessionUpdateApplied_status (sid : String) (s : Status) (now : Nat) (st : Store) :
    ∀ r ∈ (sessionUpdateApplied sid s now st).sessions,
      r.id = sid → r.status = s ∧ r.completedAt = some now := by
  intro r hr hid
  rcases List.mem_map.mp hr with ⟨a, _, rfl⟩
  by_cases h : a.id = sid
  · simp [h]
  · simp [h] at hid

/-- After a status update, every row of the session carries the new
status. -/
theorem updateSessionStatus_status (st : Store) (sid : String) (s : Status) :
    ∀ r ∈ (updateSessionStatus st sid s).sessions, r.id = sid → r.status = s := by
  intro r hr hid
  rcases List.mem_map.mp hr with ⟨a, _, rfl⟩
  by_cases h : a.id = sid
  · simp [h]
  · simp [h] at hid

/-- The store left behind by `completeSessionWithSummary` as its caller
observes it: the result of the transaction on success, the untouched input
store on a thrown transaction. -/
def completePost (failAt : Option Nat) (st : Store) (sid c : String)
    (kp ai de : Option (List String)) (now : Nat) : Store :=
  match completeSessionWithSummary failAt st sid c kp ai de .COMPLETED now with
  | .ok st2 => st2
  | .error _ => st

/-- C3: persisting the summary (upsert keyed by session id) and marking
the session COMPLETED with a completion timestamp form one atomic unit:
whatever the abort point of the transaction, the caller-visible
post-state either carries both writes (status and completion time set on
the session row, the summary rows of the session being exactly the new row)
or is the untouched pre-state, never one write without the other. -/
theorem completeSessionWithSummary_atomic (failAt : Option Nat) (st : Store)
    (sid c : String) (kp ai de : Option (List String)) (now : Nat)
    (hinv : (st.summariesOf sid).length ≤ 1) :
    completePost failAt st sid c kp ai de now = st ∨
    ((∀ r ∈ (completePost failAt st sid c kp ai de now).sessions,
        r.id = sid → r.status = .COMPLETED ∧ r.completedAt = some now) ∧
      (completePost failAt st sid c kp ai de now).summariesOf sid =
        [upsertRow sid c kp ai de] ∧
      (completePost failAt st sid c kp ai de now).chunks = st.chunks) := by
  have hrun : ∀ st2, runOps [sessionUpdateCompleted sid .COMPLETED now,
      fun st3 => .ok (summaryUpsert sid c kp ai de st3)] st = .ok st2 →
      st2 = summaryUpsert sid c kp ai de (sessionUpdateApplied sid .COMPLETED now st) ∧
      st.hasSession sid = true := by
    intro st2 h
    unfold runOps sessionUpdateCompleted at h
    by_cases hs : st.hasSession sid = true
    · rw [hs] at h
      simp only [if_true] at h
      unfold runOps at h
      exact ⟨(Except.ok.inj h).symm, hs⟩
    · rw [Bool.eq_false_iff.mpr (fun hh => hs hh)] at h
      simp at h
  have hfacts : ∀ st2, st2 = summaryUpsert sid c kp ai de
      (sessionUpdateApplied sid .COMPLETED now st) →
      (∀ r ∈ st2.sessions, r.id = sid → r.status = .COMPLETED ∧ r.completedAt = some now) ∧
      st2.summariesOf sid = [upsertRow sid c kp ai de] ∧
      st2.chunks = st.chunks := by
    intro st2 h
    subst h
    refine ⟨?_, ?_, ?_⟩
    · intro r hr hid
      rw [summaryUpsert_sessions] at hr
      exact sessionUpdateApplied_status sid .COMPLETED now st r hr hid
    · exact summariesOf_upsert _ sid c kp ai de hinv
    · rw [summaryUpsert_chunks]
      rfl
  have habort : completeSessionWithSummary failAt st sid c kp ai de .COMPLETED now
        = runOps [sessionUpdateCompleted sid .COMPLETED now,
            fun st3 => .ok (summaryUpsert sid c kp ai de st3)] st ∨
      completeSessionWithSummary failAt st sid c kp ai de .COMPLETED now
        = .error "transaction aborted" := by
    unfold completeSessionWithSummary runTransaction
    match failAt with
    | none => exact Or.inl rfl
    | some k =>
      by_cases hk : k < 2
      · exact Or.inr (by simp [hk])
      · exact Or.inl (by simp [hk])
  unfold completePost
  rcases habort with hab | hab
  · rw [hab]
    cases hh : runOps [sessionUpdateCompleted sid .COMPLETED now,
        fun st3 => .ok (summaryUpsert sid c kp ai de st3)] st with
    | ok st2 => exact Or.inr (hfacts st2 (hrun st2 hh).1)
    | error e => exact Or.inl rfl
  · rw [hab]
    exact Or.inl rfl

/-- Witness for C3 at a one-session store with no summary and a
transaction abort oracle left open. -/
theorem completeSessionWithSummary_atomic_witness :
    completePost none
        ⟨[⟨"s1", "u1", none, .MIC, .PROCESSING, none⟩], [], []⟩
        "s1" "overview" none none none 7 =
      ⟨[⟨"s1", "u1", none, .MIC, .PROCESSING, none⟩], [], []⟩ ∨
    ((∀ r ∈ (completePost none
        ⟨[⟨"s1", "u1", none, .MIC, .PROCESSING, none⟩], [], []⟩
        "s1" "overview" none none none 7).sessions,
        r.id = "s1" → r.status = .COMPLETED ∧ r.completedAt = some 7) ∧
      (completePost none
        ⟨[⟨"s1", "u1", none, .MIC, .PROCESSING, none⟩], [], []⟩
        "s1" "overview" none none none 7).summariesOf "s1" =
        [upsertRow "s1" "overview" none none none] ∧
      (completePost none
        ⟨[⟨"s1", "u1", none, .MIC, .PROCESSING, none⟩], [], []⟩
        "s1" "overview" none none none 7).chunks = []) :=
  completeSessionWithSummary_atomic none
    ⟨[⟨"s1", "u1", none, .MIC, .PROCESSING, none⟩], [], []⟩
    "s1" "overview" none none none 7 (by decide)

/-! ### Helper lemmas on the finalization success path -/

/-- Abbreviation for the environment of a `session:stop` run in which no
operational failure fires and the summarization gateway behaves as the
function `f` of the transcript. -/
def cleanStopEnv (f : String → SummarizeResult) (eF : Bool) (n : Nat) : StopEnv :=
  { procFail := false, readFail := false, summarize := fun t => .ok (f t),
    txFailAt := none, errFail := eF, now := n }

/-- Store produced by a clean finalization run. -/
def cleanStopStore (f : String → SummarizeResult) (n : Nat) (st : Store) (sid : String) : Store :=
  let t := fullTranscript ((updateSessionStatus st sid .PROCESSING).chunksOf sid)
  summaryUpsert sid (f t).content (f t).keyPoints (f t).actionItems (f t).decisions
    (sessionUpdateApplied sid .COMPLETED n (updateSessionStatus st sid .PROCESSING))

/-- A clean `session:stop` run on an existing session takes the success
path and leaves the store of `cleanStopStore`. -/
theorem handleStop_success (f : String → SummarizeResult) (eF : Bool) (n : Nat)
    (st : Store) (p : Json) (sid : String)
    (hp : parseControl p = some sid) (hsess : st.hasSession sid = true) :
    ∃ effs, handleStop (cleanStopEnv f eF n) st p = (cleanStopStore f n st sid, effs) := by
  have hc : completeSessionWithSummary none (updateSessionStatus st sid .PROCESSING) sid
      (f (fullTranscript ((updateSessionStatus st sid .PROCESSING).chunksOf sid))).content
      (f (fullTranscript ((updateSessionStatus st sid .PROCESSING).chunksOf sid))).keyPoints
      (f (fullTranscript ((updateSessionStatus st sid .PROCESSING).chunksOf sid))).actionItems
      (f (fullTranscript ((updateSessionStatus st sid .PROCESSING).chunksOf sid))).decisions
      .COMPLETED n = .ok (cleanStopStore f n st sid) := by
    unfold completeSessionWithSummary runTransaction runOps sessionUpdateCompleted
    rw [updateSessionStatus_hasSession, hsess]
    simp [runOps, cleanStopStore]
  refine ⟨[.broadcast sid (.statusMsg sid .PROCESSING),
           .callSummarize (fullTranscript ((updateSessionStatus st sid .PROCESSING).chunksOf sid)),
           .broadcast sid (.completedMsg sid)], ?_⟩
  simp [handleStop, cleanStopEnv, hp, hc]

/-- Chunk rows are untouched by a clean finalization run. -/
theorem cleanStopStore_chunks (f : String → SummarizeResult) (n : Nat) (st : Store) (sid : String) :
    (cleanStopStore f n st sid).chunks = st.chunks := by
  unfold cleanStopStore
  rw [summaryUpsert_chunks]
  rfl

/-- Session-row existence is untouched by a clean finalization run. -/
theorem cleanStopStore_hasSession (f : String → SummarizeResult) (n : Nat) (st : Store)
    (sid sid2 : String) :
    (cleanStopStore f n st sid).hasSession sid2 = st.hasSession sid2 := by
  unfold cleanStopStore Store.hasSession
  rw [summaryUpsert_sessions]
  have h1 := sessionUpdateApplied_hasSession sid sid2 .COMPLETED n (updateSessionStatus st sid .PROCESSING)
  have h2 := updateSessionStatus_hasSession st sid sid2 .PROCESSING
  unfold Store.hasSession at h1 h2
  rw [h1, h2]

/-- Under the uniqueness invariant, a clean finalization run leaves the
session with exactly the freshly computed summary row. -/
theorem cleanStopStore_summariesOf (f : String → SummarizeResult) (n : Nat) (st : Store)
    (sid : String) (hinv : (st.summariesOf sid).length ≤ 1) :
    (cleanStopStore f n st sid).summariesOf sid =
      [upsertRow sid (f (fullTranscript (st.chunksOf sid))).content
        (f (fullTranscript (st.chunksOf sid))).keyPoints
        (f (fullTranscript (st.chunksOf sid))).actionItems
        (f (fullTranscript (st.chunksOf sid))).decisions] := by
  unfold cleanStopStore
  exact summariesOf_upsert _ sid _ _ _ _ hinv

/-- C2: finalization is idempotent.  Two clean `session:stop` runs over
the same stored chunk set, with the summarization gateway a function of
the transcript, leave the same summary rows, and after the first run the
session has exactly one summary row (the upsert under the
`Summary_sessionId_key` uniqueness constraint). -/
theorem finalize_idempotent (f : String → SummarizeResult) (eF1 eF2 : Bool) (n1 n2 : Nat)
    (st : Store) (p : Json) (sid : String)
    (hp : parseControl p = some sid)
    (hsess : st.hasSession sid = true)
    (hinv : (st.summariesOf sid).length ≤ 1) :
    ∃ st1 effs1 st2 effs2,
      handleStop (cleanStopEnv f eF1 n1) st p = (st1, effs1) ∧
      handleStop (cleanStopEnv f eF2 n2) st1 p = (st2, effs2) ∧
      st2.summariesOf sid = st1.summariesOf sid ∧
      (st1.summariesOf sid).length = 1 := by
  obtain ⟨effs1, h1⟩ := handleStop_success f eF1 n1 st p sid hp hsess
  have hsess1 : (cleanStopStore f n1 st sid).hasSession sid = true := by
    rw [cleanStopStore_hasSession]; exact hsess
  have hsum1 := cleanStopStore_summariesOf f n1 st sid hinv
  have hinv1 : ((cleanStopStore f n1 st sid).summariesOf sid).length ≤ 1 := by
    rw [hsum1]; exact Nat.le_refl 1
  obtain ⟨effs2, h2⟩ := handleStop_success f eF2 n2 (cleanStopStore f n1 st sid) p sid hp hsess1
  have hchunksOf : (cleanStopStore f n1 st sid).chunksOf sid = st.chunksOf sid := by
    unfold Store.chunksOf
    rw [cleanStopStore_chunks]
  have hsum2 := cleanStopStore_summariesOf f n2 (cleanStopStore f n1 st sid) sid hinv1
  rw [hchunksOf] at hsum2
  exact ⟨_, effs1, _, effs2, h1, h2, by rw [hsum2, hsum1], by rw [hsum1]; rfl⟩

/-- Witness for C2 at a concrete one-session store with two stored
chunks and an echoing summarizer. -/
theorem finalize_idempotent_witness :
    ∃ st1 effs1 st2 effs2,
      handleStop (cleanStopEnv (fun t => ⟨t, none, none, none⟩) false 1)
        ⟨[⟨"123e4567-e89b-12d3-a456-426614174000", "u1", none, .MIC, .RECORDING, none⟩],
         [⟨"123e4567-e89b-12d3-a456-426614174000", 0, "hello", 0, 1000⟩,
          ⟨"123e4567-e89b-12d3-a456-426614174000", 1, "world", 1000, 2000⟩], []⟩
        (Json.obj [("sessionId", Json.str "123e4567-e89b-12d3-a456-426614174000")]) =
        (st1, effs1) ∧
      handleStop (cleanStopEnv (fun t => ⟨t, none, none, none⟩) false 2) st1
        (Json.obj [("sessionId", Json.str "123e4567-e89b-12d3-a456-426614174000")]) =
        (st2, effs2) ∧
      st2.summariesOf "123e4567-e89b-12d3-a456-426614174000" =
        st1.summariesOf "123e4567-e89b-12d3-a456-426614174000" ∧
      (st1.summariesOf "123e4567-e89b-12d3-a456-426614174000").length = 1 :=
  finalize_idempotent (fun t => ⟨t, none, none, none⟩) false false 1 2
    ⟨[⟨"123e4567-e89b-12d3-a456-426614174000", "u1", none, .MIC, .RECORDING, none⟩],
     [⟨"123e4567-e89b-12d3-a456-426614174000", 0, "hello", 0, 1000⟩,
      ⟨"123e4567-e89b-12d3-a456-426614174000", 1, "world", 1000, 2000⟩], []⟩
    (Json.obj [("sessionId", Json.str "123e4567-e89b-12d3-a456-426614174000")])
    "123e4567-e89b-12d3-a456-426614174000" (by rfl) (by rfl) (by decide)

/-! ### The failure paths of finalization -/

/-- Whether a `session:stop` run hits a failing step: the PROCESSING
status write, the chunk read, the summarization call or the completion
transaction (following the order of evaluation in the handler). -/
def stopFails (env : StopEnv) (st : Store) (sid : String) : Bool :=
  env.procFail || env.readFail ||
    (match env.summarize
        (fullTranscript ((updateSessionStatus st sid .PROCESSING).chunksOf sid)) with
     | .error _ => true
     | .ok summary =>
       match completeSessionWithSummary env.txFailAt
           (updateSessionStatus st sid .PROCESSING) sid summary.content
           summary.keyPoints summary.actionItems summary.decisions .COMPLETED env.now with
       | .error _ => true
       | .ok _ => false)

/-- What the catch block of `session:stop` guarantees: chunk rows are
untouched, the ERROR status broadcast and the error event are emitted,
and when the best-effort ERROR write goes through, every row of the
session carries status ERROR. -/
theorem stopCatch_spec (env : StopEnv) (st : Store) (sid : String) :
    (stopCatch env st sid).1.chunks = st.chunks ∧
    Effect.broadcast sid (.statusMsg sid .ERROR) ∈ (stopCatch env st sid).2 ∧
    Effect.emitToSender (.errorMsg "Failed to finalize session") ∈ (stopCatch env st sid).2 ∧
    (env.errFail = false →
      ∀ r ∈ (stopCatch env st sid).1.sessions, r.id = sid → r.status = .ERROR) := by
  unfold stopCatch
  by_cases h : env.errFail
  · simp [h]
  · rw [Bool.eq_false_iff.mpr h]
    refine ⟨rfl, by simp, by simp, ?_⟩
    intro _ r hr hid
    exact updateSessionStatus_status st sid .ERROR r hr hid

/-- C4: when any finalization step fails (gateway error or store error,
at whichever step), the `session:stop` handler ends in its catch block:
it best-effort sets the session status to ERROR (when that write itself
fails the failure is swallowed and the handler still completes),
broadcasts status ERROR to the session room, emits an error event to the
sender, and the already-persisted transcript chunks survive untouched. -/
theorem stop_failure_path (env : StopEnv) (st : Store) (p : Json) (sid : String)
    (hp : parseControl p = some sid)
    (hfail : stopFails env st sid = true) :
    (handleStop env st p).1.chunks = st.chunks ∧
    Effect.broadcast sid (.statusMsg sid .ERROR) ∈ (handleStop env st p).2 ∧
    Effect.emitToSender (.errorMsg "Failed to finalize session") ∈ (handleStop env st p).2 ∧
    (env.errFail = false →
      ∀ r ∈ (handleStop env st p).1.sessions, r.id = sid → r.status = .ERROR) := by
  unfold handleStop
  rw [hp]
  simp only
  by_cases hproc : env.procFail
  · simp only [hproc, if_true]
    exact stopCatch_spec env st sid
  · rw [Bool.eq_false_iff.mpr hproc]
    simp only [Bool.false_eq_true, if_false]
    by_cases hread : env.readFail
    · simp only [hread, if_true]
      obtain ⟨hc, hb, he, hs⟩ := stopCatch_spec env (updateSessionStatus st sid .PROCESSING) sid
      refine ⟨hc, by simp [hb], by simp [he], ?_⟩
      intro hef r hr hid
      exact hs hef r hr hid
    · rw [Bool.eq_false_iff.mpr hread]
      simp only [Bool.false_eq_true, if_false]
      simp only [stopFails, Bool.eq_false_iff.mpr hproc, Bool.eq_false_iff.mpr hread,
        Bool.false_or] at hfail
      cases hsum : env.summarize
          (fullTranscript ((updateSessionStatus st sid .PROCESSING).chunksOf sid)) with
      | error e =>
        simp only [hsum]
        obtain ⟨hc, hb, he, hs⟩ := stopCatch_spec env (updateSessionStatus st sid .PROCESSING) sid
        refine ⟨hc, by simp [hb], by simp [he], ?_⟩
        intro hef r hr hid
        exact hs hef r hr hid
      | ok summary =>
        simp only [hsum]
        cases hcomp : completeSessionWithSummary env.txFailAt
            (updateSessionStatus st sid .PROCESSING) sid summary.content
            summary.keyPoints summary.actionItems summary.decisions .COMPLETED env.now with
        | error e =>
          simp only [hcomp]
          obtain ⟨hc, hb, he, hs⟩ := stopCatch_spec env (updateSessionStatus st sid .PROCESSING) sid
          refine ⟨hc, by simp [hb], by simp [he], ?_⟩
          intro hef r hr hid
          exact hs hef r hr hid
        | ok st2 =>
          exfalso
          simp [hsum, hcomp] at hfail

/-- Witness for C4: a summarization gateway that throws, over a
one-session store with one stored chunk. -/
theorem stop_failure_path_witness :
    ((handleStop ⟨false, false, fun _ => .error "gateway down", none, false, 3⟩
        ⟨[⟨"123e4567-e89b-12d3-a456-426614174000", "u1", none, .MIC, .RECORDING, none⟩],
         [⟨"123e4567-e89b-12d3-a456-426614174000", 0, "hello", 0, 1000⟩], []⟩
        (Json.obj [("sessionId", Json.str "123e4567-e89b-12d3-a456-426614174000")])).1.chunks =
      [⟨"123e4567-e89b-12d3-a456-426614174000", 0, "hello", 0, 1000⟩]) ∧
    Effect.broadcast "123e4567-e89b-12d3-a456-426614174000"
        (.statusMsg "123e4567-e89b-12d3-a456-426614174000" .ERROR) ∈
      (handleStop ⟨false, false, fun _ => .error "gateway down", none, false, 3⟩
        ⟨[⟨"123e4567-e89b-12d3-a456-426614174000", "u1", none, .MIC, .RECORDING, none⟩],
         [⟨"123e4567-e89b-12d3-a456-426614174000", 0, "hello", 0, 1000⟩], []⟩
        (Json.obj [("sessionId", Json.str "123e4567-e89b-12d3-a456-426614174000")])).2 ∧
    Effect.emitToSender (.errorMsg "Failed to finalize session") ∈
      (handleStop ⟨false, false, fun _ => .error "gateway down", none, false, 3⟩
        ⟨[⟨"123e4567-e89b-12d3-a456-426614174000", "u1", none, .MIC, .RECORDING, none⟩],
         [⟨"123e4567-e89b-12d3-a456-426614174000", 0, "hello", 0, 1000⟩], []⟩
        (Json.obj [("sessionId", Json.str "123e4567-e89b-12d3-a456-426614174000")])).2 ∧
    ((false = false) →
      ∀ r ∈ (handleStop ⟨false, false, fun _ => .error "gateway down", none, false, 3⟩
        ⟨[⟨"123e4567-e89b-12d3-a456-426614174000", "u1", none, .MIC, .RECORDING, none⟩],
         [⟨"123e4567-e89b-12d3-a456-426614174000", 0, "hello", 0, 1000⟩], []⟩
        (Json.obj [("sessionId", Json.str "123e4567-e89b-12d3-a456-426614174000")])).1.sessions,
        r.id = "123e4567-e89b-12d3-a456-426614174000" → r.status = .ERROR) :=
  stop_failure_path ⟨false, false, fun _ => .error "gateway down", none, false, 3⟩
    ⟨[⟨"123e4567-e89b-12d3-a456-426614174000", "u1", none, .MIC, .RECORDING, none⟩],
     [⟨"123e4567-e89b-12d3-a456-426614174000", 0, "hello", 0, 1000⟩], []⟩
    (Json.obj [("sessionId", Json.str "123e4567-e89b-12d3-a456-426614174000")])
    "123e4567-e89b-12d3-a456-426614174000" (by rfl) (by rfl)

/-! ### Schema-validation rejection -/

/-- A malformed `session:start` payload is rejected before any side
effect. -/
theorem handleStart_invalid (env : StartEnv) (st : Store) (p : Json)
    (h : parseStart p = none) :
    handleStart env st p = (st, [.emitToSender (.errorMsg "Invalid session:start payload")]) := by
  unfold handleStart
  rw [h]

/-- A malformed `session:audioChunk` payload is rejected before any side
effect. -/
theorem handleAudioChunk_invalid (env : ChunkEnv) (st : Store) (p : Json)
    (h : parseAudioChunk p = none) :
    handleAudioChunk env st p =
      (st, [.emitToSender (.errorMsg "Invalid session:audioChunk payload")]) := by
  unfold handleAudioChunk
  rw [h]

/-- A malformed `session:pause` payload is rejected before any side
effect. -/
theorem handlePause_invalid (env : CtrlEnv) (st : Store) (p : Json)
    (h : parseControl p = none) :
    handlePause env st p = (st, [.emitToSender (.errorMsg "Invalid session:pause payload")]) := by
  unfold handlePause
  rw [h]

/-- A malformed `session:resume` payload is rejected before any side
effect. -/
theorem handleResume_invalid (env : CtrlEnv) (st : Store) (p : Json)
    (h : parseControl p = none) :
    handleResume env st p = (st, [.emitToSender (.errorMsg "Invalid session:resume payload")]) := by
  unfold handleResume
  rw [h]

/-- A malformed `session:stop` payload is rejected before any side
effect. -/
theorem handleStop_invalid (env : StopEnv) (st : Store) (p : Json)
    (h : parseControl p = none) :
    handleStop env st p = (st, [.emitToSender (.errorMsg "Invalid session:stop payload")]) := by
  unfold handleStop
  rw [h]

/-- C5: for each of the five inbound event kinds, a payload failing its
schema leaves the store untouched and produces exactly one effect, an
error event to the sender — so no store write, no gateway call, no room
join and no broadcast occur. -/
theorem invalid_payload_no_side_effect :
    (∀ env st p, parseStart p = none →
      handleStart env st p = (st, [.emitToSender (.errorMsg "Invalid session:start payload")])) ∧
    (∀ env st p, parseAudioChunk p = none →
      handleAudioChunk env st p =
        (st, [.emitToSender (.errorMsg "Invalid session:audioChunk payload")])) ∧
    (∀ env st p, parseControl p = none →
      handlePause env st p = (st, [.emitToSender (.errorMsg "Invalid session:pause payload")])) ∧
    (∀ env st p, parseControl p = none →
      handleResume env st p = (st, [.emitToSender (.errorMsg "Invalid session:resume payload")])) ∧
    (∀ env st p, parseControl p = none →
      handleStop env st p = (st, [.emitToSender (.errorMsg "Invalid session:stop payload")])) :=
  ⟨handleStart_invalid, handleAudioChunk_invalid, handlePause_invalid,
   handleResume_invalid, handleStop_invalid⟩

/-- Witness for C5 at the concrete malformed payload `null`, over an
arbitrary concrete store and environments. -/
theorem invalid_payload_no_side_effect_witness :
    handleStart ⟨false⟩ ⟨[], [], []⟩ Json.null =
      (⟨[], [], []⟩, [.emitToSender (.errorMsg "Invalid session:start payload")]) ∧
    handleAudioChunk ⟨.ok "x", false⟩ ⟨[], [], []⟩ Json.null =
      (⟨[], [], []⟩, [.emitToSender (.errorMsg "Invalid session:audioChunk payload")]) ∧
    handlePause ⟨false⟩ ⟨[], [], []⟩ Json.null =
      (⟨[], [], []⟩, [.emitToSender (.errorMsg "Invalid session:pause payload")]) ∧
    handleResume ⟨false⟩ ⟨[], [], []⟩ Json.null =
      (⟨[], [], []⟩, [.emitToSender (.errorMsg "Invalid session:resume payload")]) ∧
    handleStop ⟨false, false, fun t => .ok ⟨t, none, none, none⟩, none, false, 0⟩
        ⟨[], [], []⟩ Json.null =
      (⟨[], [], []⟩, [.emitToSender (.errorMsg "Invalid session:stop payload")]) :=
  ⟨invalid_payload_no_side_effect.1 _ _ _ (by rfl),
   invalid_payload_no_side_effect.2.1 _ _ _ (by rfl),
   invalid_payload_no_side_effect.2.2.1 _ _ _ (by rfl),
   invalid_payload_no_side_effect.2.2.2.1 _ _ _ (by rfl),
   invalid_payload_no_side_effect.2.2.2.2 _ _ _ (by rfl)⟩

/-! ### Tolerated transcription failure during live transcription -/

/-- C7: when the transcription gateway call throws for one
`session:audioChunk` event, the handler leaves the store untouched — no
TranscriptChunk for that index is stored and the session status is
unchanged — the trace holds no broadcast (only the gateway call and the
error event to the sender), and a run containing the failing event
produces the same store as the run without it, so later chunks of the
session still process normally. -/
theorem transcribe_failure_tolerated (env : ChunkEnv) (msg : String) (p : Json)
    (d : AudioChunkData)
    (henv : env.transcribe = .error msg)
    (hp : parseAudioChunk p = some d) :
    (∀ st, handleAudioChunk env st p =
      (st, [.callTranscribe d.sessionId d.index,
            .emitToSender (.errorMsg "Failed to process audio chunk")])) ∧
    (∀ st evs1 evs2,
      (runChunkEvents (evs1 ++ (env, p) :: evs2) st).1 =
        (runChunkEvents (evs1 ++ evs2) st).1) := by
  have hone : ∀ st, handleAudioChunk env st p =
      (st, [.callTranscribe d.sessionId d.index,
            .emitToSender (.errorMsg "Failed to process audio chunk")]) := by
    intro st
    unfold handleAudioChunk
    rw [hp, henv]
    rfl
  refine ⟨hone, ?_⟩
  intro st evs1 evs2
  induction evs1 generalizing st with
  | nil =>
    simp only [List.nil_append, runChunkEvents, hone]
  | cons e evs1 ih =>
    simp only [List.cons_append, runChunkEvents]
    exact ih _

/-- Witness for C7 at the chunk of index 2 of the scenario in the spec: the
failing chunk leaves the store alone and a later chunk still processes. -/
theorem transcribe_failure_tolerated_witness :
    handleAudioChunk ⟨.error "boom", false⟩
        ⟨[⟨"123e4567-e89b-12d3-a456-426614174000", "u1", none, .MIC, .RECORDING, none⟩], [], []⟩
        (Json.obj [("sessionId", Json.str "123e4567-e89b-12d3-a456-426614174000"),
          ("index", Json.num 2), ("audioBase64", Json.str "QUJD"),
          ("mimeType", Json.str "audio/webm"), ("startMs", Json.num 2000),
          ("endMs", Json.num 3000)]) =
      (⟨[⟨"123e4567-e89b-12d3-a456-426614174000", "u1", none, .MIC, .RECORDING, none⟩], [], []⟩,
       [.callTranscribe "123e4567-e89b-12d3-a456-426614174000" 2,
        .emitToSender (.errorMsg "Failed to process audio chunk")]) ∧
    (runChunkEvents
        [(⟨.error "boom", false⟩,
          Json.obj [("sessionId", Json.str "123e4567-e89b-12d3-a456-426614174000"),
            ("index", Json.num 2), ("audioBase64", Json.str "QUJD"),
            ("mimeType", Json.str "audio/webm"), ("startMs", Json.num 2000),
            ("endMs", Json.num 3000)]),
         (⟨.ok "later", false⟩,
          Json.obj [("sessionId", Json.str "123e4567-e89b-12d3-a456-426614174000"),
            ("index", Json.num 3), ("audioBase64", Json.str "QUJD"),
            ("mimeType", Json.str "audio/webm"), ("startMs", Json.num 3000),
            ("endMs", Json.num 4000)])]
        ⟨[⟨"123e4567-e89b-12d3-a456-426614174000", "u1", none, .MIC, .RECORDING, none⟩], [], []⟩).1 =
      (runChunkEvents
        [(⟨.ok "later", false⟩,
          Json.obj [("sessionId", Json.str "123e4567-e89b-12d3-a456-426614174000"),
            ("index", Json.num 3), ("audioBase64", Json.str "QUJD"),
            ("mimeType", Json.str "audio/webm"), ("startMs", Json.num 3000),
            ("endMs", Json.num 4000)])]
        ⟨[⟨"123e4567-e89b-12d3-a456-426614174000", "u1", none, .MIC, .RECORDING, none⟩], [], []⟩).1 :=
  ⟨(transcribe_failure_tolerated ⟨.error "boom", false⟩ "boom" _ _ (by rfl) (by rfl)).1 _,
   (transcribe_failure_tolerated ⟨.error "boom", false⟩ "boom"
      (Json.obj [("sessionId", Json.str "123e4567-e89b-12d3-a456-426614174000"),
        ("index", Json.num 2), ("audioBase64", Json.str "QUJD"),
        ("mimeType", Json.str "audio/webm"), ("startMs", Json.num 2000),
        ("endMs", Json.num 3000)])
      ⟨"123e4567-e89b-12d3-a456-426614174000", 2, "QUJD", "audio/webm", 2000, 3000⟩
      (by rfl) (by rfl)).2 _ [] _⟩

/-! ### Unlisted events on the recorder machine -/

/-- C8 counterexample: the claim quantifies over events not listed in the
table in §4.3 of the spec, but the machine as implemented also transitions on
ERROR from the `recording` state — delivering ERROR in `recording` is
listed nowhere in §4.3 and is not a no-op. -/
theorem rstep_spec_table_counterexample :
    specListed .recording (.ERROR "boom") = false ∧
    rstep .recording ⟨none, .MIC, "Idle", none⟩ (.ERROR "boom") ≠
      (.recording, ⟨none, .MIC, "Idle", none⟩) ∧
    rstep .recording ⟨none, .MIC, "Idle", none⟩ (.ERROR "boom") =
      (.error, ⟨none, .MIC, "Error", some "boom"⟩) := by
  refine ⟨rfl, ?_, rfl⟩
  intro h
  exact absurd (congrArg Prod.fst h) (by decide)

/-- C8 amended: for every state and every event not handled by that
state in the machine as implemented — the §4.3 table plus the
`recording --ERROR--> error` transition — delivering the event leaves
the state and the context unchanged and raises no error. -/
theorem rstep_unlisted_noop (s : RState) (ctx : RContext) (e : REvent)
    (h : machineListed s e = false) :
    rstep s ctx e = (s, ctx) := by
  cases s <;> cases e <;>
    first
      | rfl
      | simp [machineListed, specListed] at h

/-- Witness for the amended C8: a stray PAUSE in `idle` is dropped. -/
theorem rstep_unlisted_noop_witness :
    rstep .idle ⟨none, .MIC, "Idle", none⟩ .PAUSE = (.idle, ⟨none, .MIC, "Idle", none⟩) :=
  rstep_unlisted_noop .idle ⟨none, .MIC, "Idle", none⟩ .PAUSE (by rfl)

/-! ### UUID-only session identifiers -/

/-- A control payload whose sessionId is not UUID-formatted fails the
schema. -/
theorem parseControl_non_uuid (p : Json) (s : String)
    (hf : jLookup p "sessionId" = some (.str s)) (hu : isUuid s = false) :
    parseControl p = none := by
  unfold parseControl
  rw [hf]
  simp [jStr, Option.bind, hu]

/-- A start payload whose sessionId is not UUID-formatted fails the
schema. -/
theorem parseStart_non_uuid (p : Json) (s : String)
    (hf : jLookup p "sessionId" = some (.str s)) (hu : isUuid s = false) :
    parseStart p = none := by
  unfold parseStart
  rw [hf]
  simp [jStr, Option.bind, hu]

/-- An audio-chunk payload whose sessionId is not UUID-formatted fails
the schema. -/
theorem parseAudioChunk_non_uuid (p : Json) (s : String)
    (hf : jLookup p "sessionId" = some (.str s)) (hu : isUuid s = false) :
    parseAudioChunk p = none := by
  unfold parseAudioChunk
  rw [hf]
  simp [jStr, Option.bind, hu]

/-- C10: every inbound event whose sessionId field is a string that is
not UUID-formatted is rejected as malformed by all five handlers — an
error event goes to the sender and neither the store nor any room or
gateway is touched — so non-UUID tokens can never create or address a
session through the pipeline. -/
theorem non_uuid_session_rejected (p : Json) (s : String)
    (hf : jLookup p "sessionId" = some (.str s)) (hu : isUuid s = false) :
    (∀ env st, handleStart env st p =
      (st, [.emitToSender (.errorMsg "Invalid session:start payload")])) ∧
    (∀ env st, handleAudioChunk env st p =
      (st, [.emitToSender (.errorMsg "Invalid session:audioChunk payload")])) ∧
    (∀ env st, handlePause env st p =
      (st, [.emitToSender (.errorMsg "Invalid session:pause payload")])) ∧
    (∀ env st, handleResume env st p =
      (st, [.emitToSender (.errorMsg "Invalid session:resume payload")])) ∧
    (∀ env st, handleStop env st p =
      (st, [.emitToSender (.errorMsg "Invalid session:stop payload")])) :=
  ⟨fun env st => handleStart_invalid env st p (parseStart_non_uuid p s hf hu),
   fun env st => handleAudioChunk_invalid env st p (parseAudioChunk_non_uuid p s hf hu),
   fun env st => handlePause_invalid env st p (parseControl_non_uuid p s hf hu),
   fun env st => handleResume_invalid env st p (parseControl_non_uuid p s hf hu),
   fun env st => handleStop_invalid env st p (parseControl_non_uuid p s hf hu)⟩

/-- Witness for C10 at the concrete non-UUID token "not-a-uuid". -/
theorem non_uuid_session_rejected_witness :
    handleStart ⟨false⟩ ⟨[], [], []⟩ (Json.obj [("sessionId", Json.str "not-a-uuid")]) =
      (⟨[], [], []⟩, [.emitToSender (.errorMsg "Invalid session:start payload")]) ∧
    handleStop ⟨false, false, fun t => .ok ⟨t, none, none, none⟩, none, false, 0⟩
        ⟨[], [], []⟩ (Json.obj [("sessionId", Json.str "not-a-uuid")]) =
      (⟨[], [], []⟩, [.emitToSender (.errorMsg "Invalid session:stop payload")]) :=
  ⟨(non_uuid_session_rejected (Json.obj [("sessionId", Json.str "not-a-uuid")])
      "not-a-uuid" (by rfl) (by rfl)).1 _ _,
   (non_uuid_session_rejected (Json.obj [("sessionId", Json.str "not-a-uuid")])
      "not-a-uuid" (by rfl) (by rfl)).2.2.2.2 _ _⟩

/-! ### The summarization gateway contract -/

/-- Traversing a JSON array of string literals recovers the strings. -/
theorem mapM_jStr_map_str (l : List String) :
    (l.map Json.str).mapM jStr = some l := by
  induction l with
  | nil => rfl
  | cons hd tl ih => rw [List.map_cons, List.mapM_cons, ih]; rfl

/-- A JSON array of string literals extracts to its string list. -/
theorem jStrList_map_str (l : List String) :
    jStrList (.arr (l.map Json.str)) = some l :=
  mapM_jStr_map_str l

/-- C6: when the model-response text parses (after trimming and fence
stripping) as the expected JSON shape, the structured fields are
returned; when parsing fails, the raw response text becomes the summary
overview with the three lists absent — a degraded but successful result;
in particular the raw input "not json" yields that exact overview with
all three lists absent. -/
theorem summarizeTranscript_contract :
    (∀ raw s kp ai de,
      Json.parse (jsTrim (stripFences (jsTrim raw))) =
        some (.obj [("summary", .str s), ("keyPoints", .arr (kp.map .str)),
                    ("actionItems", .arr (ai.map .str)), ("decisions", .arr (de.map .str))]) →
      summarizeTranscript raw = ⟨s, some kp, some ai, some de⟩) ∧
    (∀ raw, Json.parse (jsTrim (stripFences (jsTrim raw))) = none →
      summarizeTranscript raw = ⟨jsTrim raw, none, none, none⟩) ∧
    summarizeTranscript "not json" = ⟨"not json", none, none, none⟩ := by
  refine ⟨?_, ?_, by rfl⟩
  · intro raw s kp ai de h
    simp [summarizeTranscript, h, jLookup, jStr, jStrList_map_str]
  · intro raw h
    simp [summarizeTranscript, h]

/-- Witness for C6: a fenced structured response is parsed into its
fields, and the unparsable "not json" degrades to the raw overview. -/
theorem summarizeTranscript_contract_witness :
    summarizeTranscript
        "```json\n\x7b\"summary\": \"hi\", \"keyPoints\": [\"a\"], \"actionItems\": [], \"decisions\": []\x7d\n```" =
      ⟨"hi", some ["a"], some [], some []⟩ ∧
    summarizeTranscript "not json" = ⟨"not json", none, none, none⟩ :=
  ⟨summarizeTranscript_contract.1
      "```json\n\x7b\"summary\": \"hi\", \"keyPoints\": [\"a\"], \"actionItems\": [], \"decisions\": []\x7d\n```"
      "hi" ["a"] [] [] (by rfl),
   summarizeTranscript_contract.2.1 "not json" (by rfl)⟩

end ScribeAI
